import Mathlib

/-!
Shallow embedding of the content-marketing idea generator (src/app.py) and
verification of its specification claims.

Python strings are modelled as Lean `String`; Python string methods
(`strip`, `lower`, `title`, `split`, `join`, slicing) are given explicit
executable counterparts below.  The remote inference endpoint is modelled
as an oracle argument of type `Except Unit String` (`Except.ok t` = the
endpoint returned text `t`, `Except.error ()` = the call raised).  The
environment-dependent configuration (`HF_TOKEN`, client-library presence,
the pro unlock secret, the export timestamp) is passed explicitly.
A Python `KeyError` escaping a function is modelled by an `Option` result
(`none` = uncaught lookup failure).
-/

namespace App

/-- Whitespace predicate used by the model of Python `str.strip()`. -/
def pyWS : Char → Bool := Char.isWhitespace

/-- List-level both-ends whitespace strip: drop from the left, then from the right. -/
def stripL (l : List Char) : List Char :=
  List.rdropWhile pyWS (List.dropWhile pyWS l)

/-- Model of Python `str.strip()`. -/
def pyStrip (s : String) : String := String.mk (stripL s.data)

/-- Model of Python `str.lower()` (ASCII usage). -/
def pyLower (s : String) : String := String.mk (s.data.map Char.toLower)

/-- Helper for `pyTitle`: the flag records whether the previous character was cased. -/
def pyTitleAux : Bool → List Char → List Char
  | _, [] => []
  | prev, c :: rest =>
    if c.isAlpha then
      (if prev then c.toLower else c.toUpper) :: pyTitleAux true rest
    else c :: pyTitleAux false rest

/-- Model of Python `str.title()` (ASCII usage). -/
def pyTitle (s : String) : String := String.mk (pyTitleAux false s.data)

/-- Model of Python string slicing `s[:n]`. -/
def pyTake (s : String) (n : Nat) : String := String.mk (s.data.take n)

/-- Model of Python `sep.join(parts)`. -/
def pyJoin (sep : String) : List String → String
  | [] => ""
  | [x] => x
  | x :: y :: rest => x ++ sep ++ pyJoin sep (y :: rest)

/-- Fuel-based worker for `pySplit`; the fuel always exceeds the remaining
input length, so the fuel-exhausted branch is unreachable. -/
def pySplitAux (sep : List Char) : Nat → List Char → List Char → List (List Char)
  | 0, l, acc => [acc.reverse ++ l]
  | _ + 1, [], acc => [acc.reverse]
  | fuel + 1, c :: rest, acc =>
    if sep.isPrefixOf (c :: rest) then
      acc.reverse :: pySplitAux sep fuel (rest.drop (sep.length - 1)) []
    else
      pySplitAux sep fuel rest (c :: acc)

/-- Model of Python `s.split(sep)` for a non-empty separator: splits at every
non-overlapping occurrence of `sep`, scanning left to right, keeping empties. -/
def pySplit (s sep : String) : List String :=
  (pySplitAux sep.data (s.data.length + 1) s.data []).map String.mk

/-- The supported platform list (`PLATFORMS`, src/app.py lines 19-28). -/
def PLATFORMS : List String :=
  ["Instagram Reel", "Instagram Carousel", "TikTok", "Pinterest Pin",
   "YouTube Shorts", "LinkedIn", "Blog/Post", "Newsletter"]

/-- Persona record: the three lists stored per persona in `PERSONAS`. -/
structure Persona where
  pain_points : List String
  desires : List String
  keywords : List String
deriving DecidableEq

/-- The persona table (`PERSONAS`, src/app.py lines 52-105). -/
def PERSONAS : List (String × Persona) :=
  [("Wellness Consumers",
    ⟨["Burnout from fast routines", "Seeking calm rituals", "Overloaded by wellness jargon"],
     ["Simple self-nurture", "Proof-backed benefits", "Products that feel like a hug"],
     ["grounding", "slow rituals", "mind-body reset"]⟩),
   ("Busy Parents",
    ⟨["Juggling family and self-time", "Limited attention spans", "Need bite-sized wins"],
     ["Quick wins that feel meaningful", "Flexible schedules", "Relatable stories"],
     ["five-minute reset", "family-first", "real-life demo"]⟩),
   ("Gen Z Creators",
    ⟨["Scroll fatigue", "Skeptical of brand speak", "Need authenticity"],
     ["Playful experimentation", "Share-worthy hooks", "Community-first energy"],
     ["duet this", "lofi chaos", "main-character energy"]⟩),
   ("Premium Shoppers",
    ⟨["Tired of mass-market feel", "Need elevated proof", "Guarded with trust"],
     ["Luxury cues", "White-glove service", "Testimonials"],
     ["artisan", "limited release", "concierge-level"]⟩)]

/-- Model of `PERSONAS.get(persona, {})`: a guarded lookup whose miss yields the
empty record (every subsequent `.get(key, [])` then yields `[]`). -/
def personaGet (persona : String) : Persona :=
  (PERSONAS.lookup persona).getD ⟨[], [], []⟩

/-- Default pro unlock secret, normalized as in src/app.py line 17. -/
def PRO_UNLOCK_CODE : String := pyLower (pyStrip "loomvale-pro")

/-- Model of `call_llm` (src/app.py lines 111-125).  `hf_token` is the stripped
`HF_TOKEN` value, `client_available` is `InferenceClient is not None`, and
`remote` is the oracle outcome of the one network call.  `temperature` and
`max_tokens` are forwarded to the endpoint and do not affect control flow. -/
def call_llm (prompt : String) (temperature : Rat) (max_tokens : Nat)
    (hf_token : String) (client_available : Bool) (remote : Except Unit String) : String :=
  if hf_token ≠ "" ∧ client_available then
    match remote with
    | Except.ok text => pyStrip text
    | Except.error _ => ""
  else ""

/-- Model of `build_prompt` (src/app.py lines 128-129): the f-string joins the
two directives with a blank line and then strips the combined string. -/
def build_prompt (system_directive user_directive : String) : String :=
  pyStrip (system_directive ++ "\n\n" ++ user_directive)

/-- Definition following the spec's words for 4.2 ("both inputs trimmed of
surrounding whitespace", then joined): used only to compare with `build_prompt`. -/
def build_prompt_spec (system_directive user_directive : String) : String :=
  pyStrip system_directive ++ "\n\n" ++ pyStrip user_directive

/-- Success message of `unlock_pro` (src/app.py lines 135-138). -/
def unlock_success_msg : String :=
  "<span style=\x27color:#1B9C85;font-weight:600\x27>Pro mode unlocked! Enjoy extended outputs, trend deep dives, and export packs.</span>"

/-- Empty-input message of `unlock_pro` (src/app.py lines 140-143). -/
def unlock_prompt_msg : String :=
  "<span style=\x27color:#E07A5F\x27>Enter your unlock code to access Pro depth, or grab it via the purchase button.</span>"

/-- Mismatch message of `unlock_pro` (src/app.py lines 144-147). -/
def unlock_error_msg : String :=
  "<span style=\x27color:#E07A5F\x27>That code didnâ€™t match. Double-check your unlock email from Gumroad.</span>"

/-- Model of `unlock_pro` (src/app.py lines 132-147); `secret` is the
configured `PRO_UNLOCK_CODE` value (already stripped and lowercased). -/
def unlock_pro (secret : String) (code : String) : String × Bool :=
  let code_normalized := pyLower (pyStrip code)
  if code_normalized ≠ "" ∧ code_normalized = secret then (unlock_success_msg, true)
  else if code_normalized = "" then (unlock_prompt_msg, false)
  else (unlock_error_msg, false)

/-- The remote-response parsing step shared by `generate_ideas` (lines 199-200)
and `generate_captions` (lines 288-289): split on `"---"`, strip each segment,
drop empties, truncate to the effective count. -/
def parse_segments (raw : String) (cap : Nat) : List String :=
  (((pySplit raw "---").map pyStrip).filter (fun s => s != "")).take cap

/-- Helper for `parse_segments_spec`: split a list of lines at delimiter lines. -/
def splitLinesAtDelim (delim : String) : List String → List (List String)
  | [] => [[]]
  | l :: rest =>
    if pyStrip l == delim then [] :: splitLinesAtDelim delim rest
    else
      match splitLinesAtDelim delim rest with
      | [] => [[l]]
      | seg :: segs => (l :: seg) :: segs

/-- Definition following the spec's words for the parsing step ("split the
returned text on lines containing exactly the delimiter `---`"): used only to
compare with `parse_segments`. -/
def parse_segments_spec (raw : String) (cap : Nat) : List String :=
  ((((splitLinesAtDelim "---" (pySplit raw "\n")).map
      (fun seg => pyStrip (pyJoin "\n" seg))).filter (fun s => s != ""))).take cap

/-- The platform-to-deliverable-hint table of `fallback_ideas`
(src/app.py lines 153-162), keyed by platform, looked up without a guard. -/
def deliverable_hints : List (String × String) :=
  [("Instagram Reel", "Storyboard the first 3 shots, keep them under 2s each."),
   ("Instagram Carousel", "Plan 5 slides with headline, proof, takeaway, CTA, reminder."),
   ("TikTok", "Lean on pattern interrupts at second 1.5 and 3."),
   ("Pinterest Pin", "Design vertical graphics with layered typography."),
   ("YouTube Shorts", "Use kinetic text and ASMR-lite audio cues."),
   ("LinkedIn", "Anchor your hook on a metric, close with a reflective question."),
   ("Blog/Post", "Break into intro, 3 insights, closing action."),
   ("Newsletter", "Segment into letter, resource trio, and micro-challenge.")]

/-- Body of the `fallback_ideas` loop (src/app.py lines 164-174), given the
deliverable hint obtained from the unguarded table lookup. -/
def fallback_build (seed : String) (moods : List String) (persona : String)
    (total : Nat) (deliverable_hint : String) : List String :=
  let persona_data := personaGet persona
  let keywords := pyJoin ", " (persona_data.keywords.take 2)
  let active_moods := if moods = [] then ["cozy"] else moods
  (List.range total).map (fun i =>
    let mood := active_moods.getD (i % active_moods.length) ""
    let headline := pyTitle mood ++ " take: " ++ seed ++ " for " ++ pyLower persona
    let flow := "Frame it around " ++
      (if keywords = "" then "their daily rhythm" else keywords) ++
      "; finish with " ++ pyLower deliverable_hint
    let social_proof := "Use a quick stat or testimonial to anchor trust."
    "**" ++ headline ++
      "** â€” Lead with a one-line story, ladder into a transformation, and nod to " ++
      pyLower persona ++ " priorities. " ++ flow ++ ". " ++ social_proof)

/-- Model of `fallback_ideas` (src/app.py lines 150-174).  The platform lookup
`{...}[platform]` is unguarded: a key miss raises `KeyError`, modelled as `none`. -/
def fallback_ideas (seed platform : String) (moods : List String) (persona : String)
    (total : Nat) : Option (List String) :=
  (deliverable_hints.lookup platform).map (fallback_build seed moods persona total)

/-- System prompt of the idea generator (src/app.py lines 187-190). -/
def idea_system_prompt : String :=
  "You are a senior social strategist creating multi-platform content blueprints. Respond in markdown bullet points, weaving in persona-specific insights."

/-- User prompt of the idea generator (src/app.py lines 191-196). -/
def idea_user_prompt (seed platform mood_line persona : String) (capped_total : Nat) : String :=
  "Seed: " ++ seed ++ ". Platform: " ++ platform ++ ". Desired moods: " ++ mood_line ++
  ". Persona: " ++ persona ++ ". Return " ++ toString capped_total ++
  " distinct ideas. Each idea should include: \n- Hook angle\n- Story beats\n- Visual or format cue\n- CTA phrased for the persona\n---\nSeparate each idea with a line containing exactly \x27---\x27. Keep language punchy and practical."

/-- One exported idea row (src/app.py lines 205-213). -/
structure IdeaRow where
  platform : String
  persona : String
  moods : String
  idea : String
deriving DecidableEq

/-- Full observable outcome of one `generate_ideas` call: the returned
markdown, rows and file paths, plus the list of files written (the side
effect of src/app.py lines 222-228). -/
structure IdeaResult where
  md : String
  rows : List IdeaRow
  csv_path : Option String
  json_path : Option String
  files_written : List String
deriving DecidableEq

/-- Rendering stage of `generate_ideas` (src/app.py lines 205-230): builds the
rows, the markdown, the timestamped export paths, and writes the two files. -/
def ideas_render (platform persona : String) (moods : List String)
    (ideas : List String) (ts : String) : IdeaResult :=
  let rows := ideas.map (fun idea =>
    { platform := platform, persona := persona,
      moods := if moods = [] then "cozy" else pyJoin ", " moods, idea := idea : IdeaRow })
  let md := pyJoin "\n\n---\n\n"
    (rows.enum.map (fun p => "### Idea " ++ toString (p.1 + 1) ++ "\n\n" ++ p.2.idea))
  let csv_path := "/tmp/ideas_" ++ ts ++ ".csv"
  let json_path := "/tmp/ideas_" ++ ts ++ ".json"
  { md := md, rows := rows, csv_path := some csv_path, json_path := some json_path,
    files_written := [csv_path, json_path] }

/-- Model of `generate_ideas` (src/app.py lines 177-230).  `hf_token`,
`client_available` and `remote` are the environment/oracle inputs of
`call_llm`; `ts` is the `datetime.now()` timestamp string. -/
def generate_ideas (seed platform : String) (moods : List String) (persona : String)
    (total : Nat) (use_llm is_pro : Bool) (hf_token : String) (client_available : Bool)
    (remote : Except Unit String) (ts : String) : Option IdeaResult :=
  let seed := pyStrip seed
  if seed = "" then
    some { md := "Please enter a seed idea to expand.", rows := [],
           csv_path := none, json_path := none, files_written := [] }
  else
    let capped_total := if is_pro then total else min total 4
    let llm_ideas : List String :=
      if use_llm ∧ hf_token ≠ "" then
        let mood_line := if moods = [] then "cozy" else pyJoin ", " moods
        let raw := call_llm
          (build_prompt idea_system_prompt (idea_user_prompt seed platform mood_line persona capped_total))
          (0.7 : Rat) 512 hf_token client_available remote
        if raw ≠ "" then parse_segments raw capped_total else []
      else []
    let ideas_opt := if llm_ideas = [] then fallback_ideas seed platform moods persona capped_total
      else some llm_ideas
    ideas_opt.map (fun ideas => ideas_render platform persona moods ideas ts)

/-- Model of `fallback_captions` (src/app.py lines 233-250).  The loop body
does not depend on the index, and `platform` is unused in the source. -/
def fallback_captions (seed article persona tone platform : String) (total : Nat) : List String :=
  let persona_data := personaGet persona
  let headline := if seed ≠ "" then seed
    else (if article ≠ "" then pyTake article 60 ++ "..." else "Your story")
  let tone_hint := if tone ≠ "" then pyLower tone else "warm storyteller"
  let keywords := pyJoin ", " (persona_data.keywords.take 2)
  (List.range total).map (fun _ =>
    let hook := headline ++ ": " ++ pyLower persona ++ " deserve better."
    let context := "Pull one proof point or micro-lesson from the article. Translate it into " ++
      pyLower persona ++ " language, sprinkling phrases like " ++
      (if keywords = "" then "their daily life" else keywords) ++ " to ground it."
    let cta := "Close with a save/share CTA that promises an immediate win."
    hook ++ "\n\n" ++ context ++ "\n\nCTA â†’ " ++ cta ++ " (Tone: " ++ tone_hint ++ ").")

/-- System prompt of the caption generator (src/app.py lines 272-275). -/
def caption_system_prompt : String :=
  "You craft persuasive social captions that feel native to each platform and persona. Return numbered captions with hook, payoff, CTA, and hashtags when relevant."

/-- User prompt of the caption generator (src/app.py lines 276-285). -/
def caption_user_prompt (persona tone platform : String) (capped_total : Nat)
    (seed article : String) : String :=
  "Persona: " ++ persona ++ ". Tone: " ++ tone ++ ". Platform: " ++ platform ++
  ". Number of captions: " ++ toString capped_total ++ ". Seed idea: " ++
  (if seed = "" then "N/A" else seed) ++ ". Source text: " ++ pyTake article 1200 ++
  "\nEach caption should contain: \n1. Thumb-stopping hook tailored to the persona\n2. 1-2 sentence story or insight pulled from the source\n3. CTA geared for conversion\n4. Optional hashtag line (3-6 hashtags) optimized for the platform\nSeparate each caption with a line containing exactly \x27---\x27."

/-- Caption pipeline of `generate_captions` (src/app.py lines 268-292): the
cap, the remote attempt, and the template fallback, before markdown joining.
Expects `seed` and `article` already stripped by `generate_captions`. -/
def generate_captions_list (seed article persona tone platform : String) (total : Nat)
    (use_llm is_pro : Bool) (hf_token : String) (client_available : Bool)
    (remote : Except Unit String) : List String :=
  let capped_total := if is_pro then total else min total 3
  let llm_captions : List String :=
    if use_llm ∧ hf_token ≠ "" then
      let raw := call_llm
        (build_prompt caption_system_prompt (caption_user_prompt persona tone platform capped_total seed article))
        (0.65 : Rat) 700 hf_token client_available remote
      if raw ≠ "" then parse_segments raw capped_total else []
    else []
  if llm_captions = [] then fallback_captions seed article persona tone platform capped_total
  else llm_captions

/-- Model of `generate_captions` (src/app.py lines 253-296). -/
def generate_captions (seed article persona tone platform : String) (total : Nat)
    (use_llm is_pro : Bool) (hf_token : String) (client_available : Bool)
    (remote : Except Unit String) : String :=
  let article := pyStrip article
  let seed := pyStrip seed
  if seed = "" ∧ article = "" then "Paste a seed, article, or notes to generate captions."
  else
    let captions := generate_captions_list seed article persona tone platform total
      use_llm is_pro hf_token client_available remote
    pyJoin "\n\n---\n\n"
      (captions.enum.map (fun p => "### Caption " ++ toString (p.1 + 1) ++ "\n\n" ++ p.2))

/-- Hashtag source list of the content-kit fallback (src/app.py lines 354-360).
The last entry is a plain (non-f-) string in the source, kept verbatim. -/
def kit_hashtags : List String :=
  ["#contentthatconverts", "#brandstory", "#aestheticstrategy", "#consumerinsights",
   "#\x7bplatform.replace(\x27 \x27, \x27\x27).lower()\x7dtips"]

/-- Hashtag stack actually rendered by the content-kit fallback
(src/app.py line 376): `hashtags[: (8 if is_pro else 5)]`. -/
def kit_hashtag_stack (is_pro : Bool) : List String :=
  kit_hashtags.take (if is_pro then 8 else 5)

/-- Fixed CTA list of the content-kit fallback (src/app.py lines 348-352). -/
def cta_swaps : List String :=
  ["Send me a DM with \x27READY\x27 and Iâ€™ll forward the checklist.",
   "Tap shop now and claim your first-order upgrade.",
   "Save this for your reset routine and share with a friend who needs it."]

/-- Fixed nurture-flow text of the content-kit fallback (src/app.py lines 362-366). -/
def nurture_flow : String :=
  "1. **Problem Post** â€” spotlight a common frustration and agitate it gently.\n2. **Proof Post** â€” share a demo, testimonial, or data-backed transformation.\n3. **Purchase Post** â€” unveil the offer with urgency anchored in persona desires."

/-- System prompt of the content-kit remote path (src/app.py lines 324-326). -/
def kit_system_prompt : String :=
  "You are a marketing operator delivering a launch-ready content kit. Return sections in markdown with headings."

/-- User prompt of the content-kit remote path (src/app.py lines 327-331). -/
def kit_user_prompt (seed platform persona : String) (is_pro : Bool) : String :=
  "Seed: " ++ seed ++ ". Platform: " ++ platform ++ ". Persona: " ++ persona ++
  ". Depth level: " ++ (if is_pro then "deep-dive" else "lite") ++ "." ++
  "Return the following sections: Hook Headlines (5), Visual Direction, CTA Swaps, Hashtag Stack, and a 3-post nurture flow (Problem â†’ Proof â†’ Purchase)."

/-- Model of `build_content_kit` (src/app.py lines 317-379). -/
def build_content_kit (seed platform persona : String) (is_pro use_llm : Bool)
    (hf_token : String) (client_available : Bool) (remote : Except Unit String) : String :=
  let seed := pyStrip seed
  if seed = "" then "Provide a seed to craft the content kit."
  else
    let raw :=
      if use_llm ∧ hf_token ≠ "" then
        call_llm (build_prompt kit_system_prompt (kit_user_prompt seed platform persona is_pro))
          (0.6 : Rat) (if is_pro then 750 else 500) hf_token client_available remote
      else ""
    if raw ≠ "" then raw
    else
      let persona_data := personaGet persona
      let hook_templates :=
        if persona_data.desires = [] then
          ["Start with a transformation hook tied to their daily life."]
        else persona_data.desires.map (fun desire =>
          "What if " ++ pyLower persona ++ " could " ++ pyLower desire ++ " starting this week?")
      let visual_direction :=
        if persona_data.keywords ≠ [] then
          "Lean into " ++ pyLower platform ++
          " native cues: mix close-up texture shots with overlay text that echoes \x27" ++
          persona_data.keywords.getD 0 "their language" ++ "\x27"
        else "Use platform-first visuals that mirror the seed \x27" ++ seed ++ "\x27."
      "### Hook Headlines\n" ++ pyJoin "\n" (hook_templates.map (fun hook => "- " ++ hook)) ++
      "\n\n### Visual Direction\n" ++ visual_direction ++
      "\n\n### CTA Swaps\n" ++ pyJoin "\n" (cta_swaps.map (fun cta => "- " ++ cta)) ++
      "\n\n### Hashtag Stack\n" ++ pyJoin " " (kit_hashtag_stack is_pro) ++
      "\n\n### 3-Post Nurture Flow\n" ++ nurture_flow

/-! ### Helper lemmas -/

theorem string_ne_empty_iff (s : String) : s ≠ "" ↔ s.data ≠ [] := by
  constructor
  · intro h hd
    exact h (String.ext hd)
  · intro h hd
    exact h (congrArg String.data hd)

theorem str_append_assoc (a b c : String) : a ++ b ++ c = a ++ (b ++ c) := by
  apply String.ext
  simp [String.data_append]

theorem append_left_ne_empty (a b : String) (h : a ≠ "") : a ++ b ≠ "" := by
  rw [string_ne_empty_iff] at h ⊢
  rw [String.data_append]
  intro hab
  exact h (List.append_eq_nil.mp hab).1

theorem pyJoin_cons_ne_empty (sep x : String) (xs : List String) (hx : x ≠ "") :
    pyJoin sep (x :: xs) ≠ "" := by
  cases xs with
  | nil => simpa [pyJoin] using hx
  | cons y ys =>
    simpa [pyJoin, str_append_assoc] using append_left_ne_empty x (sep ++ pyJoin sep (y :: ys)) hx

theorem lookup_isSome_iff {α β : Type} [BEq α] [LawfulBEq α] (l : List (α × β)) (a : α) :
    (l.lookup a).isSome ↔ a ∈ l.map Prod.fst := by
  induction l with
  | nil => simp [List.lookup]
  | cons hd tl ih =>
    obtain ⟨k, v⟩ := hd
    by_cases h : a = k
    · subst h
      simp [List.lookup]
    · have hbeq : (a == k) = false := beq_false_of_ne h
      simp [List.lookup, hbeq, h, ih]

theorem dropWhile_head_false {α : Type} {p : α → Bool} (l : List α) {c : α} {t : List α}
    (h : List.dropWhile p l = c :: t) : p c = false := by
  induction l with
  | nil => simp [List.dropWhile] at h
  | cons a as ih =>
    rw [List.dropWhile_cons] at h
    by_cases hpa : p a = true
    · rw [if_pos hpa] at h
      exact ih h
    · rw [if_neg hpa] at h
      cases h
      simpa using hpa

theorem dropWhile_fix_of_prefix {α : Type} {p : α → Bool} {l r : List α}
    (hpre : r <+: List.dropWhile p l) : List.dropWhile p r = r := by
  cases r with
  | nil => rfl
  | cons c t =>
    obtain ⟨s, hs⟩ := hpre
    have hc : p c = false := dropWhile_head_false l hs.symm
    simp [List.dropWhile_cons, hc]

theorem stripL_left_fix (l : List Char) : List.dropWhile pyWS (stripL l) = stripL l :=
  dropWhile_fix_of_prefix ( List.rdropWhile_prefix pyWS (List.dropWhile pyWS l))

theorem stripL_right_fix (l : List Char) : List.rdropWhile pyWS (stripL l) = stripL l :=
  List.rdropWhile_idempotent pyWS (List.dropWhile pyWS l)

theorem stripL_idem (l : List Char) : stripL (stripL l) = stripL l := by
  show List.rdropWhile pyWS (List.dropWhile pyWS (stripL l)) = stripL l
  rw [stripL_left_fix, stripL_right_fix]

theorem pyStrip_idem (s : String) : pyStrip (pyStrip s) = pyStrip s := by
  show String.mk (stripL (stripL s.data)) = String.mk (stripL s.data)
  rw [stripL_idem]

theorem stripL_eq_self_parts {l : List Char} (h : stripL l = l) :
    List.dropWhile pyWS l = l ∧ List.rdropWhile pyWS l = l := by
  have hpre : stripL l <+: List.dropWhile pyWS l :=
    List.rdropWhile_prefix pyWS (List.dropWhile pyWS l)
  have hsuf : List.dropWhile pyWS l <:+ l := List.dropWhile_suffix pyWS
  have hlen1 : (stripL l).length ≤ (List.dropWhile pyWS l).length := hpre.length_le
  have hlen2 : (List.dropWhile pyWS l).length ≤ l.length := hsuf.length_le
  rw [h] at hlen1
  have hdl : List.dropWhile pyWS l = l := hsuf.eq_of_length (le_antisymm hlen2 hlen1)
  refine ⟨hdl, ?_⟩
  have hrs : stripL l = List.rdropWhile pyWS l := by
    unfold stripL
    rw [hdl]
  rw [← hrs, h]

theorem dropWhile_append_fix {α : Type} {p : α → Bool} {a : List α} (x : List α)
    (ha : List.dropWhile p a = a) (hne : a ≠ []) :
    List.dropWhile p (a ++ x) = a ++ x := by
  cases a with
  | nil => exact absurd rfl hne
  | cons c t =>
    have hc : p c = false := dropWhile_head_false (c :: t) ha
    simp [List.dropWhile_cons, hc]

theorem rdropWhile_append_fix {α : Type} {p : α → Bool} (x : List α) {b : List α}
    (hb : List.rdropWhile p b = b) (hne : b ≠ []) :
    List.rdropWhile p (x ++ b) = x ++ b := by
  have hb' : List.dropWhile p b.reverse = b.reverse := by
    have := congrArg List.reverse hb
    simpa [List.rdropWhile] using this
  unfold List.rdropWhile
  rw [List.reverse_append]
  rw [dropWhile_append_fix x.reverse hb' (by simpa using hne)]
  simp

theorem stripL_append_fix {a b : List Char} (m : List Char)
    (ha : stripL a = a) (hb : stripL b = b) (hna : a ≠ []) (hnb : b ≠ []) :
    stripL (a ++ m ++ b) = a ++ m ++ b := by
  obtain ⟨hal, _⟩ := stripL_eq_self_parts ha
  obtain ⟨_, hbr⟩ := stripL_eq_self_parts hb
  unfold stripL
  rw [List.append_assoc]
  rw [dropWhile_append_fix (m ++ b) hal hna]
  rw [← List.append_assoc]
  exact rdropWhile_append_fix (a ++ m) hbr hnb

theorem deliverable_hints_keys : deliverable_hints.map Prod.fst = PLATFORMS := rfl

theorem lookup_hint_exists {platform : String} (h : platform ∈ PLATFORMS) :
    ∃ hint, deliverable_hints.lookup platform = some hint := by
  have hsome : (deliverable_hints.lookup platform).isSome := by
    rw [lookup_isSome_iff, deliverable_hints_keys]
    exact h
  exact Option.isSome_iff_exists.mp hsome

theorem fallback_build_length (seed : String) (moods : List String) (persona : String)
    (total : Nat) (hint : String) :
    (fallback_build seed moods persona total hint).length = total := by
  simp [fallback_build]

theorem fallback_build_mem_seed {seed : String} {moods : List String} {persona : String}
    {total : Nat} {hint : String} {s : String}
    (h : s ∈ fallback_build seed moods persona total hint) :
    ∃ p q, s = p ++ seed ++ q := by
  unfold fallback_build at h
  simp only [List.mem_map, List.mem_range] at h
  obtain ⟨i, _, rfl⟩ := h
  refine ⟨"**" ++
    pyTitle ((if moods = [] then ["cozy"] else moods).getD
      (i % (if moods = [] then ["cozy"] else moods).length) "") ++ " take: ", ?_, ?_⟩
  · exact " for " ++ pyLower persona ++
      "** â€” Lead with a one-line story, ladder into a transformation, and nod to " ++
      pyLower persona ++ " priorities. " ++
      ("Frame it around " ++
        (if pyJoin ", " ((personaGet persona).keywords.take 2) = "" then "their daily rhythm"
          else pyJoin ", " ((personaGet persona).keywords.take 2)) ++
        "; finish with " ++ pyLower hint) ++ ". " ++
      "Use a quick stat or testimonial to anchor trust."
  · simp [str_append_assoc]

theorem fallback_captions_length (seed article persona tone platform : String) (total : Nat) :
    (fallback_captions seed article persona tone platform total).length = total := by
  simp [fallback_captions]

theorem ideas_render_rows_length (platform persona : String) (moods : List String)
    (ideas : List String) (ts : String) :
    (ideas_render platform persona moods ideas ts).rows.length = ideas.length := by
  simp [ideas_render]

theorem ideas_render_rows_idea (platform persona : String) (moods : List String)
    (ideas : List String) (ts : String) :
    (ideas_render platform persona moods ideas ts).rows.map IdeaRow.idea = ideas := by
  unfold ideas_render
  simp only [List.map_map]
  exact List.map_id ideas

theorem ideas_render_md_ne_empty (platform persona : String) (moods : List String)
    {ideas : List String} (ts : String) (hne : ideas ≠ []) :
    (ideas_render platform persona moods ideas ts).md ≠ "" := by
  cases ideas with
  | nil => exact absurd rfl hne
  | cons a l =>
    show pyJoin "\n\n---\n\n" _ ≠ ""
    simp only [List.map_cons, List.enum_cons, List.map]
    apply pyJoin_cons_ne_empty
    exact append_left_ne_empty "### Idea " _ (by decide)

theorem generate_ideas_no_token (seed platform : String) (moods : List String)
    (persona : String) (total : Nat) (use_llm is_pro : Bool) (client_available : Bool)
    (remote : Except Unit String) (ts : String) (hs : pyStrip seed ≠ "") :
    generate_ideas seed platform moods persona total use_llm is_pro "" client_available
      remote ts =
    (fallback_ideas (pyStrip seed) platform moods persona
        (if is_pro then total else min total 4)).map
      (fun ideas => ideas_render platform persona moods ideas ts) := by
  unfold generate_ideas
  simp [hs]

theorem generate_captions_list_no_token (seed article persona tone platform : String)
    (total : Nat) (use_llm is_pro : Bool) (client_available : Bool)
    (remote : Except Unit String) :
    generate_captions_list seed article persona tone platform total use_llm is_pro ""
      client_available remote =
    fallback_captions seed article persona tone platform
      (if is_pro then total else min total 3) := by
  unfold generate_captions_list
  simp

/-! ### Claim theorems -/

/-- C1: for every idea request the number of generated entries on the
deterministic path is the requested count when `is_pro` and `min(count, 4)`
otherwise, and for every caption request it is the requested count when
`is_pro` and `min(count, 3)` otherwise. -/
theorem effective_count_caps (seed platform article tone : String) (moods : List String)
    (persona : String) (total : Nat) (use_llm use_llm2 is_pro : Bool) (c c2 : Bool)
    (r r2 : Except Unit String) (ts : String)
    (hs : pyStrip seed ≠ "") (hp : platform ∈ PLATFORMS) :
    (∃ res, generate_ideas seed platform moods persona total use_llm is_pro "" c r ts
        = some res ∧ res.rows.length = (if is_pro then total else min total 4)) ∧
    (generate_captions_list seed article persona tone platform total use_llm2 is_pro ""
        c2 r2).length = (if is_pro then total else min total 3) := by
  constructor
  · obtain ⟨hint, hh⟩ := lookup_hint_exists hp
    refine ⟨ideas_render platform persona moods
      (fallback_build (pyStrip seed) moods persona (if is_pro then total else min total 4) hint)
      ts, ?_, ?_⟩
    · rw [generate_ideas_no_token seed platform moods persona total use_llm is_pro c r ts hs]
      unfold fallback_ideas
      rw [hh]
      rfl
    · rw [ideas_render_rows_length, fallback_build_length]
  · rw [generate_captions_list_no_token, fallback_captions_length]

/-- Witness for C1 at a concrete input. -/
theorem effective_count_caps_witness :
    (∃ res, generate_ideas "Adaptogenic cacao launch" "TikTok" ["cozy", "minimalist"]
        "Wellness Consumers" 6 true false "" true (Except.ok "x") "20260101_000000"
        = some res ∧ res.rows.length = (if false then 6 else min 6 4)) ∧
    (generate_captions_list "Adaptogenic cacao launch" "" "Wellness Consumers"
        "Warm storyteller" "TikTok" 6 true false "" true (Except.ok "x")).length
      = (if false then 6 else min 6 3) :=
  effective_count_caps "Adaptogenic cacao launch" "TikTok" "" "Warm storyteller"
    ["cozy", "minimalist"] "Wellness Consumers" 6 true true false true true
    (Except.ok "x") (Except.ok "x") "20260101_000000" (by decide) (by decide)

/-- C2: for every supported platform, persona, mood list, seed and total,
`fallback_ideas` succeeds with exactly `total` idea strings, each containing
the seed verbatim as a substring. -/
theorem fallback_ideas_count_and_seed (seed platform : String) (moods : List String)
    (persona : String) (total : Nat) (h : platform ∈ PLATFORMS) :
    ∃ ideas, fallback_ideas seed platform moods persona total = some ideas ∧
      ideas.length = total ∧ ∀ s ∈ ideas, ∃ p q, s = p ++ seed ++ q := by
  obtain ⟨hint, hh⟩ := lookup_hint_exists h
  refine ⟨fallback_build seed moods persona total hint, ?_,
    fallback_build_length seed moods persona total hint,
    fun s hs => fallback_build_mem_seed hs⟩
  unfold fallback_ideas
  rw [hh]
  rfl

/-- Witness for C2 at a concrete input. -/
theorem fallback_ideas_count_and_seed_witness :
    ∃ ideas, fallback_ideas "Summer pop-up" "Newsletter" [] "Gen Z Creators" 5 = some ideas ∧
      ideas.length = 5 ∧ ∀ s ∈ ideas, ∃ p q, s = p ++ "Summer pop-up" ++ q :=
  fallback_ideas_count_and_seed "Summer pop-up" "Newsletter" [] "Gen Z Creators" 5 (by decide)

/-- C3: `call_llm` is total (modelled as a pure function); with no credential
or no client library it returns `""` without consulting the remote oracle,
and a raised remote exception is mapped to `""`. -/
theorem call_llm_soft_fail (prompt : String) (temperature : Rat) (max_tokens : Nat)
    (hf_token : String) (client_available : Bool) (remote : Except Unit String) :
    (hf_token = "" ∨ client_available = false →
      call_llm prompt temperature max_tokens hf_token client_available remote = "" ∧
      ∀ remote2, call_llm prompt temperature max_tokens hf_token client_available remote2
        = call_llm prompt temperature max_tokens hf_token client_available remote) ∧
    (remote = Except.error () →
      call_llm prompt temperature max_tokens hf_token client_available remote = "") := by
  constructor
  · intro h
    have hcond : ¬(hf_token ≠ "" ∧ client_available = true) := by
      rcases h with h | h
      · intro hc
        exact hc.1 h
      · intro hc
        rw [h] at hc
        exact Bool.false_ne_true hc.2
    constructor
    · unfold call_llm
      rw [if_neg hcond]
    · intro remote2
      unfold call_llm
      rw [if_neg hcond, if_neg hcond]
  · intro h
    subst h
    unfold call_llm
    by_cases hc : hf_token ≠ "" ∧ client_available = true
    · rw [if_pos hc]
    · rw [if_neg hc]

/-- Witness for C3 at concrete inputs. -/
theorem call_llm_soft_fail_witness :
    call_llm "p" (0.7 : Rat) 512 "" true (Except.ok "text") = "" ∧
    call_llm "p" (0.7 : Rat) 512 "tok" true (Except.error ()) = "" :=
  ⟨((call_llm_soft_fail "p" (0.7 : Rat) 512 "" true (Except.ok "text")).1 (Or.inl rfl)).1,
   (call_llm_soft_fail "p" (0.7 : Rat) 512 "tok" true (Except.error ())).2 rfl⟩

/-- C4: `unlock_pro` normalizes by strip+lowercase; empty normalization yields
the prompt message with `is_pro = false`, a non-empty mismatch yields the error
message with `false`, and a match with the (non-empty) configured secret yields
the success message with `true`. -/
theorem unlock_pro_cases (secret code : String) (hsec : secret ≠ "") :
    (pyLower (pyStrip code) = "" → unlock_pro secret code = (unlock_prompt_msg, false)) ∧
    (pyLower (pyStrip code) ≠ "" → pyLower (pyStrip code) ≠ secret →
      unlock_pro secret code = (unlock_error_msg, false)) ∧
    (pyLower (pyStrip code) = secret → unlock_pro secret code = (unlock_success_msg, true)) := by
  refine ⟨?_, ?_, ?_⟩
  · intro h
    unfold unlock_pro
    rw [if_neg (fun hc => hc.1 h), if_pos h]
  · intro h hne
    unfold unlock_pro
    rw [if_neg (fun hc => hne hc.2), if_neg h]
  · intro h
    unfold unlock_pro
    rw [if_pos ⟨h ▸ hsec, h⟩]

/-- Witness for C4 at the default configured secret and a concrete code. -/
theorem unlock_pro_cases_witness :
    unlock_pro PRO_UNLOCK_CODE "  LOOMVALE-PRO " = (unlock_success_msg, true) :=
  (unlock_pro_cases PRO_UNLOCK_CODE "  LOOMVALE-PRO " (by decide)).2.2 (by decide)

/-- C5: when the seed strips to empty, `generate_ideas` returns the plain
missing-seed message with no rows, no file paths and no files written. -/
theorem generate_ideas_missing_seed (seed platform : String) (moods : List String)
    (persona : String) (total : Nat) (use_llm is_pro : Bool) (hf_token : String)
    (client_available : Bool) (remote : Except Unit String) (ts : String)
    (h : pyStrip seed = "") :
    generate_ideas seed platform moods persona total use_llm is_pro hf_token
      client_available remote ts =
    some { md := "Please enter a seed idea to expand.", rows := [],
           csv_path := none, json_path := none, files_written := [] } := by
  unfold generate_ideas
  rw [if_pos h]

/-- Witness for C5 at a whitespace-only seed. -/
theorem generate_ideas_missing_seed_witness :
    generate_ideas "   " "TikTok" ["cozy"] "Busy Parents" 6 true true "tok" true
      (Except.ok "x") "20260101_000000" =
    some { md := "Please enter a seed idea to expand.", rows := [],
           csv_path := none, json_path := none, files_written := [] } :=
  generate_ideas_missing_seed "   " "TikTok" ["cozy"] "Busy Parents" 6 true true "tok"
    true (Except.ok "x") "20260101_000000" (by decide)

/-- C6 counterexample: the parsing step splits at every occurrence of the
substring `---`, so `"a---b"` (which has no delimiter line) is split in two,
while the claimed line-based split would keep it whole. -/
theorem parse_segments_not_line_based :
    parse_segments "a---b" 4 ≠ parse_segments_spec "a---b" 4 ∧
    parse_segments "a---b" 4 = ["a", "b"] ∧
    parse_segments_spec "a---b" 4 = ["a---b"] := by
  refine ⟨by decide, by decide, by decide⟩

/-- C6 amended: the parsing step splits the raw text at every occurrence of
the substring `---`, trims each segment, discards empties, and truncates to
the effective count. -/
theorem parse_segments_substring_split (raw : String) (cap : Nat) :
    parse_segments raw cap
      = (((pySplit raw "---").map pyStrip).filter (fun s => s != "")).take cap ∧
    (parse_segments raw cap).length ≤ cap ∧
    ∀ s ∈ parse_segments raw cap,
      s ≠ "" ∧ pyStrip s = s ∧ s ∈ (pySplit raw "---").map pyStrip := by
  refine ⟨rfl, List.length_take_le cap _, ?_⟩
  intro s hs
  have hs' := List.mem_of_mem_take hs
  obtain ⟨hmem, hne⟩ := List.mem_filter.mp hs'
  refine ⟨by simpa using hne, ?_, hmem⟩
  obtain ⟨x, _, hxe⟩ := List.mem_map.mp hmem
  rw [← hxe]
  exact pyStrip_idem x

/-- C7 counterexample: `build_prompt` strips only the combined string, not each
input: with system directive `"a "` the inner trailing space survives, while
the individually-trimmed join of the claim would remove it. -/
theorem build_prompt_not_individually_trimmed :
    build_prompt "a " "b" ≠ build_prompt_spec "a " "b" ∧
    build_prompt "a " "b" = "a \n\nb" ∧
    build_prompt_spec "a " "b" = "a\n\nb" := by
  refine ⟨by decide, by decide, by decide⟩

/-- C7 amended: `build_prompt` joins the two directives with a blank-line
separator and strips the surrounding whitespace of the combined string; this
agrees with the individually-trimmed join whenever both directives are
non-empty and already trimmed. -/
theorem build_prompt_trim_agreement (s u : String) (hs : pyStrip s = s)
    (hu : pyStrip u = u) (hs0 : s ≠ "") (hu0 : u ≠ "") :
    build_prompt s u = build_prompt_spec s u := by
  unfold build_prompt build_prompt_spec
  rw [hs, hu]
  apply String.ext
  show stripL ((s ++ "\n\n" ++ u).data) = (s ++ "\n\n" ++ u).data
  have hda : stripL s.data = s.data := congrArg String.data hs
  have hdu : stripL u.data = u.data := congrArg String.data hu
  rw [String.data_append, String.data_append]
  exact stripL_append_fix ("\n\n".data) hda hdu
    ((string_ne_empty_iff s).mp hs0) ((string_ne_empty_iff u).mp hu0)

/-- Witness for C7 amended at concrete trimmed inputs. -/
theorem build_prompt_trim_agreement_witness :
    build_prompt "You are a helper." "Seed: cacao." =
      build_prompt_spec "You are a helper." "Seed: cacao." :=
  build_prompt_trim_agreement "You are a helper." "Seed: cacao."
    (by decide) (by decide) (by decide) (by decide)

/-- C8: with the gateway disabled (empty credential), `generate_ideas` is
fully determined by the user inputs and the timestamp: for every oracle value
it returns the rendering of the deterministic fallback ideas, and its output
is non-empty. -/
theorem gateway_disabled_deterministic (seed platform : String) (moods : List String)
    (persona : String) (total : Nat) (use_llm is_pro : Bool)
    (hs : pyStrip seed ≠ "") (hp : platform ∈ PLATFORMS) (ht : 1 ≤ total) :
    ∃ ideas, fallback_ideas (pyStrip seed) platform moods persona
        (if is_pro then total else min total 4) = some ideas ∧ ideas ≠ [] ∧
      ∀ (c : Bool) (r : Except Unit String) (ts : String),
        generate_ideas seed platform moods persona total use_llm is_pro "" c r ts =
          some (ideas_render platform persona moods ideas ts) ∧
        (ideas_render platform persona moods ideas ts).md ≠ "" := by
  obtain ⟨hint, hh⟩ := lookup_hint_exists hp
  have hcap : 1 ≤ (if is_pro then total else min total 4) := by
    cases is_pro <;> simp <;> omega
  have hlen := fallback_build_length (pyStrip seed) moods persona
    (if is_pro then total else min total 4) hint
  have hne : fallback_build (pyStrip seed) moods persona
      (if is_pro then total else min total 4) hint ≠ [] := by
    intro h0
    rw [h0] at hlen
    simp at hlen
    omega
  refine ⟨fallback_build (pyStrip seed) moods persona
    (if is_pro then total else min total 4) hint, ?_, hne, fun c r ts => ⟨?_, ?_⟩⟩
  · unfold fallback_ideas
    rw [hh]
    rfl
  · rw [generate_ideas_no_token seed platform moods persona total use_llm is_pro c r ts hs]
    unfold fallback_ideas
    rw [hh]
    rfl
  · exact ideas_render_md_ne_empty platform persona moods ts hne

/-- Witness for C8 at a concrete input. -/
theorem gateway_disabled_deterministic_witness :
    ∃ ideas, fallback_ideas (pyStrip "Summer pop-up announcement") "Instagram Carousel"
        ["zen"] "Premium Shoppers" (if true then 7 else min 7 4) = some ideas ∧ ideas ≠ [] ∧
      ∀ (c : Bool) (r : Except Unit String) (ts : String),
        generate_ideas "Summer pop-up announcement" "Instagram Carousel" ["zen"]
          "Premium Shoppers" 7 true true "" c r ts =
          some (ideas_render "Instagram Carousel" "Premium Shoppers" ["zen"] ideas ts) ∧
        (ideas_render "Instagram Carousel" "Premium Shoppers" ["zen"] ideas ts).md ≠ "" :=
  gateway_disabled_deterministic "Summer pop-up announcement" "Instagram Carousel" ["zen"]
    "Premium Shoppers" 7 true true (by decide) (by decide) (by decide)

/-- C9 counterexample: in the content-kit fallback the hashtag stack rendered
for a pro user has 5 entries, not 8 — the source list holds only 5 hashtags. -/
theorem kit_hashtag_stack_not_eight :
    (kit_hashtag_stack true).length = 5 ∧ (kit_hashtag_stack true).length ≠ 8 := by
  refine ⟨by decide, by decide⟩

/-- C9 amended: the hashtag stack contains 5 entries whether or not `is_pro`:
the pro truncation to 8 is a no-op on the 5-element source list. -/
theorem kit_hashtag_stack_five (is_pro : Bool) :
    kit_hashtag_stack is_pro = kit_hashtags ∧ (kit_hashtag_stack is_pro).length = 5 := by
  cases is_pro
  · exact ⟨rfl, rfl⟩
  · exact ⟨rfl, rfl⟩

/-- C10: `fallback_ideas` succeeds exactly on the 8 supported platforms: the
unguarded hint-table lookup raises a key error (modelled `none`) for any other
platform string, for every persona (the persona lookup is guarded). -/
theorem fallback_ideas_platform_domain (seed platform : String) (moods : List String)
    (persona : String) (total : Nat) :
    (fallback_ideas seed platform moods persona total).isSome ↔ platform ∈ PLATFORMS := by
  unfold fallback_ideas
  rw [Option.isSome_map']
  rw [lookup_isSome_iff, deliverable_hints_keys]

end App
